import Mathlib

/-!
Shallow embedding of the RAG chatbot's document-processing and chat core
(`models/document_processor.py` and `models/chatbot.py`).

External collaborators are modelled as explicit parameters:
* the text chunker (`RecursiveCharacterTextSplitter.split_text`) as a
  function `chunk : String → List String`;
* the FAISS similarity search (`similarity_search_with_score`) as an oracle
  `simSearch : List Entry → String → Nat → List (Entry × Int)` over the
  entries currently held by the docstore;
* the remote LLM (`genai.GenerativeModel(...).generate_content` followed by
  reading `.text`) as `llm : String → Option String`, `none` standing for a
  raised exception.

PDF text extraction is collapsed into the stored file content: the on-disk
pdf directory is a finite map from filename to the text that extraction
would produce for that file.
-/

namespace RAG

/-- Metadata recorded for one document in `metadata["documents"]`:
`filename`, `chunk_count` (the `uploaded_at` timestamp and `file_path` play
no role in any claim and are omitted). -/
structure DocInfo where
  filename : String
  chunk_count : Nat
deriving Repr, DecidableEq

/-- One entry of the FAISS docstore: the chunk text plus the metadata dict
`{"source": ..., "doc_id": ...}` attached at insertion time. -/
structure Entry where
  content : String
  source : String
  doc_id : String
deriving Repr, DecidableEq

/-- The mutable state of a `DocumentProcessor`:
`documents` is the insertion-ordered dict `metadata["documents"]`,
`entries` the insertion-ordered values of `vector_store.docstore._dict`,
`files` the pdf directory (filename mapped to extracted text). -/
structure DPState where
  documents : List (String × DocInfo)
  entries : List Entry
  files : List (String × String)
deriving Repr, DecidableEq

/-- Dictionary lookup on an association list (Python `d[k]` / `k in d`). -/
def lookupKey {α : Type} (l : List (String × α)) (k : String) : Option α :=
  (l.find? (fun p => p.1 == k)).map (fun p => p.2)

/-- Dictionary deletion on an association list (Python `del d[k]`,
`os.remove`). Keys are unique in a Python dict, so filtering every binding
of `k` agrees with deleting the one binding. -/
def eraseKey {α : Type} (l : List (String × α)) (k : String) : List (String × α) :=
  l.filter (fun p => p.1 != k)

/-- Dictionary write `d[k] = v` (used for saving an uploaded file, where a
name collision overwrites the file on disk). -/
def writeKey {α : Type} (l : List (String × α)) (k : String) (v : α) : List (String × α) :=
  eraseKey l k ++ [(k, v)]

/-- Python `str.strip()`: the string with leading and trailing whitespace
removed (used only to test `not raw_text.strip()`). -/
def py_strip (s : String) : String :=
  String.mk (((s.data.dropWhile Char.isWhitespace).reverse.dropWhile Char.isWhitespace).reverse)

/-- The reserved placeholder entry created by `FAISS.from_texts(["placeholder
content"], ..., metadatas=[{"source": "placeholder", "doc_id":
"placeholder"}])`. -/
def placeholder_entry : Entry :=
  { content := "placeholder content", source := "placeholder", doc_id := "placeholder" }

/-- Per-document body of the rebuild loop in
`DocumentProcessor._rebuild_vector_store`: look the document's file up on
disk; if it is missing, or extraction yields only whitespace, skip it
(metadata untouched, no entries); otherwise re-chunk the text, refresh
`chunk_count`, and produce the chunk entries tagged
`{"source": filename, "doc_id": doc_id}`. -/
def rebuildDoc (chunk : String → List String) (files : List (String × String))
    (p : String × DocInfo) : (String × DocInfo) × List Entry :=
  match lookupKey files p.2.filename with
  | none => (p, [])
  | some text =>
    if py_strip text = "" then (p, [])
    else
      let chunks := chunk text
      ((p.1, { filename := p.2.filename, chunk_count := chunks.length }),
       chunks.map (fun c => { content := c, source := p.2.filename, doc_id := p.1 }))

/-- `DocumentProcessor._rebuild_vector_store`: start from a fresh store
holding only the placeholder, iterate over `metadata["documents"]` in
order, re-adding each document's chunks and updating its `chunk_count`;
documents whose file is missing or whose text is whitespace-only are
skipped with a warning. -/
def _rebuild_vector_store (chunk : String → List String) (st : DPState) : DPState :=
  { documents := st.documents.map (fun p => (rebuildDoc chunk st.files p).1)
    entries := placeholder_entry ::
      (st.documents.map (fun p => (rebuildDoc chunk st.files p).2)).flatten
    files := st.files }

/-- The rebuild trigger computed by
`DocumentProcessor._ensure_vector_store_populated`: rebuild when metadata is
empty but the pdf directory is not, when the docstore holds at most one
entry, or when the docstore holds fewer than (document count + 1) entries. -/
def need_rebuild (st : DPState) : Bool :=
  (st.documents.isEmpty && !st.files.isEmpty) || st.entries.length ≤ 1 ||
  (0 < st.documents.length && st.entries.length < st.documents.length + 1)

/-- `DocumentProcessor._ensure_vector_store_populated`, run at the end of
`__init__`: force `_rebuild_vector_store` exactly when `need_rebuild`
holds. -/
def _ensure_vector_store_populated (chunk : String → List String) (st : DPState) : DPState :=
  if need_rebuild st then _rebuild_vector_store chunk st else st

/-- Filename normalization at the top of `DocumentProcessor.process_pdf`:
a missing filename becomes `doc_id ++ ".pdf"`, one that does not end in
`.pdf` (case-insensitively) gets `.pdf` appended. -/
def normalize_filename (doc_id : String) (filename : Option String) : String :=
  match filename with
  | none => doc_id ++ ".pdf"
  | some f => if f.toLower.endsWith ".pdf" then f else f ++ ".pdf"

/-- `DocumentProcessor.process_pdf`: save the uploaded file, extract its
text (`text` is the extraction result for the uploaded bytes); fail if the
text is whitespace-only; otherwise chunk, add the chunk entries to the
vector store, and append a new metadata record with the chunk count.
`doc_id` stands for the freshly generated `uuid.uuid4()`. -/
def process_pdf (chunk : String → List String) (st : DPState) (doc_id : String)
    (filename : Option String) (text : String) : Bool × DPState :=
  let fname := normalize_filename doc_id filename
  let files1 := writeKey st.files fname text
  if py_strip text = "" then (false, { st with files := files1 })
  else
    let chunks := chunk text
    (true,
      { documents := st.documents ++ [(doc_id, { filename := fname, chunk_count := chunks.length })]
        entries := st.entries ++
          chunks.map (fun c => { content := c, source := fname, doc_id := doc_id })
        files := files1 })

/-- `DocumentProcessor.search_documents`: return `[]` at once when the
metadata store holds no documents; otherwise run the similarity search over
the current docstore and filter out every result whose `doc_id` metadata is
the reserved `"placeholder"`. -/
def search_documents (simSearch : List Entry → String → Nat → List (Entry × Int))
    (st : DPState) (query : String) (k : Nat) : List (Entry × Int) :=
  if st.documents.length = 0 then []
  else (simSearch st.entries query k).filter (fun p => p.1.doc_id != "placeholder")

/-- `DocumentProcessor.delete_document`: fail when `doc_id` is not a
metadata key; otherwise best-effort delete the PDF file named by the
document's filename, remove the metadata record, and rebuild the vector
store from scratch. -/
def delete_document (chunk : String → List String) (st : DPState) (doc_id : String) :
    Bool × DPState :=
  match lookupKey st.documents doc_id with
  | none => (false, st)
  | some info =>
    (true, _rebuild_vector_store chunk
      { st with files := eraseKey st.files info.filename
                documents := eraseKey st.documents doc_id })

/-- Populated-entry count of the vector store: docstore entries other than
the reserved placeholder. -/
def populated_count (st : DPState) : Nat :=
  (st.entries.filter (fun e => e.doc_id != "placeholder")).length

/-- Sum of `chunk_count` over all documents of the metadata store. -/
def aggregate_chunk_count (st : DPState) : Nat :=
  (st.documents.map (fun p => p.2.chunk_count)).sum

/-- A document's file is present on disk and extracts to non-whitespace
text (the condition under which the rebuild loop does not skip it). -/
def file_ok (files : List (String × String)) (p : String × DocInfo) : Bool :=
  match lookupKey files p.2.filename with
  | none => false
  | some t => py_strip t != ""

/-- Every metadata document's file is present on disk and extracts to
non-whitespace text. -/
def all_files_ok (st : DPState) : Bool :=
  st.documents.all (file_ok st.files)

/-- One message of `ComplianceChatbot.chat_history`. -/
structure ChatMsg where
  role : String
  content : String
deriving Repr, DecidableEq

/-- One element of the `sources` list built by
`ComplianceChatbot.generate_response`. -/
structure SourceRef where
  source : String
  score : Int
  doc_id : String
deriving Repr, DecidableEq

/-- The fixed message returned when the search yields no result
(`chatbot.py`, the `if not search_results` branch). -/
def no_info_message : String :=
  "I\x27m sorry, I couldn\x27t find any relevant information in the compliance documents. Please consider uploading relevant PDFs if they\x27re not already in our system."

/-- The fixed apologetic message returned from the `except` branch of
`ComplianceChatbot.generate_response`. -/
def llm_error_message : String :=
  "I\x27m sorry, I encountered an error while generating a response. Please try again later."

/-- The fixed instruction block of `ComplianceChatbot.generate_response`
(the surrounding indentation whitespace of the Python triple-quoted literal
is not reproduced). -/
def system_instructions : String :=
  "You are a compliance assistant for a financial institution. Your role is to provide accurate information based on the company\x27s compliance documents. Answer the user\x27s query using ONLY the information provided in the context. If the answer is not in the provided context, say that you don\x27t have enough information from the compliance documents to answer. Do not make up answers. Always cite the specific document source you used for your answer."

/-- The composite prompt sent to the remote LLM: instructions, the
retrieved context block, the user question, and the closing request, as
assembled by the f-string of `generate_response`. -/
def build_prompt (context_text : String) (query : String) : String :=
  system_instructions ++ "\n\nContext information from compliance documents:\n" ++
    context_text ++ "\n\nUser question: " ++ query ++
    "\n\nPlease provide a response based only on the context information provided."

/-- The prompt `generate_response` would send for a given query: retrieved
chunk texts joined by blank lines, embedded in the fixed template. -/
def full_prompt_of (simSearch : List Entry → String → Nat → List (Entry × Int))
    (dp : DPState) (query : String) (k : Nat) : String :=
  build_prompt
    (String.intercalate "\n\n"
      ((search_documents simSearch dp query k).map (fun p => p.1.content)))
    query

/-- `ComplianceChatbot.generate_response`: search for context; with no
results return the fixed no-information message, an empty source list, and
an untouched transcript. Otherwise build the prompt and call the remote
LLM (`llm`, with `none` standing for any exception raised by the call or
by reading its response): on failure return the fixed apologetic message
and an empty source list, transcript untouched; on success append the
user/assistant pair to the transcript, cap it at the last 20 entries, and
return the response text with the sources drawn from the search results. -/
def generate_response (llm : String → Option String)
    (simSearch : List Entry → String → Nat → List (Entry × Int))
    (dp : DPState) (history : List ChatMsg) (query : String) (k : Nat) :
    String × List SourceRef × List ChatMsg :=
  let search_results := search_documents simSearch dp query k
  if search_results.isEmpty then (no_info_message, [], history)
  else
    let sources := search_results.map (fun p =>
      { source := p.1.source, score := p.2, doc_id := p.1.doc_id : SourceRef })
    let context_text := String.intercalate "\n\n" (search_results.map (fun p => p.1.content))
    match llm (build_prompt context_text query) with
    | none => (llm_error_message, [], history)
    | some response_text =>
      let h1 := history ++ [{ role := "user", content := query },
                            { role := "assistant", content := response_text }]
      let h2 := if h1.length > 20 then h1.drop (h1.length - 20) else h1
      (response_text, sources, h2)

/-! Concrete fixtures used by witness and counterexample theorems. -/

/-- A sample non-placeholder docstore entry. -/
def ex_entry : Entry := { content := "hello", source := "a.pdf", doc_id := "d1" }

/-- Metadata of the sample document. -/
def ex_info : DocInfo := { filename := "a.pdf", chunk_count := 1 }

/-- A processor state holding one ingested document. -/
def ex_state : DPState :=
  { documents := [("d1", ex_info)]
    entries := [placeholder_entry, ex_entry]
    files := [("a.pdf", "hello")] }

/-- A processor state holding no documents at all. -/
def ex_empty_state : DPState := { documents := [], entries := [placeholder_entry], files := [] }

/-- A sample similarity-search oracle: every stored entry, in store order,
with score 0. -/
def ex_search : List Entry → String → Nat → List (Entry × Int) :=
  fun es _ _ => es.map (fun e => (e, 0))

/-- A sample chunker: the whole text as a single chunk. -/
def ex_chunk : String → List String := fun t => [t]

/-- C2: when the extracted text is empty or whitespace-only, `process_pdf`
returns failure, and the only state change is the saved raw file: the
metadata store and the vector store are untouched, and the pdf directory
gains exactly the saved file. -/
theorem process_pdf_empty_text (chunk : String → List String) (st : DPState)
    (doc_id : String) (filename : Option String) (text : String)
    (h : py_strip text = "") :
    (process_pdf chunk st doc_id filename text).1 = false ∧
    (process_pdf chunk st doc_id filename text).2.documents = st.documents ∧
    (process_pdf chunk st doc_id filename text).2.entries = st.entries ∧
    (process_pdf chunk st doc_id filename text).2.files =
      writeKey st.files (normalize_filename doc_id filename) text := by
  simp [process_pdf, h]

/-- Witness for C2 at a concrete whitespace-only upload. -/
theorem process_pdf_empty_text_witness :
    (py_strip "  " = "") ∧
    ((process_pdf ex_chunk ex_state "d2" (some "b.pdf") "  ").1 = false ∧
     (process_pdf ex_chunk ex_state "d2" (some "b.pdf") "  ").2.documents = ex_state.documents ∧
     (process_pdf ex_chunk ex_state "d2" (some "b.pdf") "  ").2.entries = ex_state.entries ∧
     (process_pdf ex_chunk ex_state "d2" (some "b.pdf") "  ").2.files =
       writeKey ex_state.files (normalize_filename "d2" (some "b.pdf")) "  ") :=
  ⟨by decide, process_pdf_empty_text ex_chunk ex_state "d2" (some "b.pdf") "  " (by decide)⟩

/-- C4: no result of `search_documents` carries the reserved placeholder
document id, for any oracle, state, query, and k. -/
theorem search_filters_placeholder
    (simSearch : List Entry → String → Nat → List (Entry × Int))
    (st : DPState) (query : String) (k : Nat) :
    (search_documents simSearch st query k).all
      (fun p => p.1.doc_id != "placeholder") = true := by
  unfold search_documents
  split
  · rfl
  · rw [List.all_eq_true]
    intro p hp
    exact (List.mem_filter.mp hp).2

/-- C5: with zero documents in the metadata store, `search_documents`
returns the empty sequence for every query and k, and does so for every
similarity-search oracle — the oracle (and hence the vector index and the
embedding gateway behind it) is never consulted. -/
theorem search_empty_store
    (simSearch : List Entry → String → Nat → List (Entry × Int))
    (st : DPState) (query : String) (k : Nat)
    (h : st.documents = []) :
    search_documents simSearch st query k = [] := by
  simp [search_documents, h]

/-- Witness for C5 on the document-free state. -/
theorem search_empty_store_witness :
    (ex_empty_state.documents = []) ∧
    search_documents ex_search ex_empty_state "any query" 7 = [] :=
  ⟨rfl, search_empty_store ex_search ex_empty_state "any query" 7 rfl⟩

/-- C6: whenever the search comes back empty, `generate_response` returns
the fixed no-relevant-information message with an empty source list and an
untouched transcript, and the result does not depend on the LLM gateway
`llm` — no remote LLM call is made. -/
theorem generate_response_no_results (llm : String → Option String)
    (simSearch : List Entry → String → Nat → List (Entry × Int))
    (dp : DPState) (history : List ChatMsg) (query : String) (k : Nat)
    (h : search_documents simSearch dp query k = []) :
    generate_response llm simSearch dp history query k = (no_info_message, [], history) := by
  simp [generate_response, h]

/-- Witness for C6 on a document-free state, with an LLM gateway that
would answer if it were ever called. -/
theorem generate_response_no_results_witness :
    (search_documents ex_search ex_empty_state "hi" 5 = []) ∧
    generate_response (fun _ => some "never used") ex_search ex_empty_state [] "hi" 5 =
      (no_info_message, [], []) :=
  ⟨rfl, generate_response_no_results (fun _ => some "never used") ex_search
    ex_empty_state [] "hi" 5 rfl⟩

/-- C7: when the search is non-empty and the remote LLM call fails (raises),
`generate_response` returns the fixed apologetic failure message and an
empty source list; being a total function, it returns rather than
propagating the failure. -/
theorem generate_response_llm_failure (llm : String → Option String)
    (simSearch : List Entry → String → Nat → List (Entry × Int))
    (dp : DPState) (history : List ChatMsg) (query : String) (k : Nat)
    (hne : search_documents simSearch dp query k ≠ [])
    (hfail : llm (full_prompt_of simSearch dp query k) = none) :
    (generate_response llm simSearch dp history query k).1 = llm_error_message ∧
    (generate_response llm simSearch dp history query k).2.1 = [] := by
  have hie : (search_documents simSearch dp query k).isEmpty = false := by
    simpa [List.isEmpty_iff] using hne
  unfold full_prompt_of at hfail
  simp [generate_response, hie, hfail]

/-- Witness for C7: a state with one document, an oracle returning its
entry, and an LLM gateway that always fails. -/
theorem generate_response_llm_failure_witness :
    (search_documents ex_search ex_state "q" 5 ≠ []) ∧
    ((fun _ : String => (none : Option String)) (full_prompt_of ex_search ex_state "q" 5)
      = none) ∧
    ((generate_response (fun _ => none) ex_search ex_state [] "q" 5).1 = llm_error_message ∧
     (generate_response (fun _ => none) ex_search ex_state [] "q" 5).2.1 = []) :=
  ⟨by decide, rfl,
   generate_response_llm_failure (fun _ => none) ex_search ex_state [] "q" 5 (by decide) rfl⟩

/-- C10: when the remote LLM call fails, the chat transcript is returned
completely unchanged — nothing is appended and nothing is truncated. (When
the search is empty the transcript is also untouched, so the hypothesis
only constrains the gateway on the prompt that would be sent.) -/
theorem generate_response_failure_frame (llm : String → Option String)
    (simSearch : List Entry → String → Nat → List (Entry × Int))
    (dp : DPState) (history : List ChatMsg) (query : String) (k : Nat)
    (hfail : llm (full_prompt_of simSearch dp query k) = none) :
    (generate_response llm simSearch dp history query k).2.2 = history := by
  by_cases he : search_documents simSearch dp query k = []
  · simp [generate_response, he]
  · have hie : (search_documents simSearch dp query k).isEmpty = false := by
      simpa [List.isEmpty_iff] using he
    unfold full_prompt_of at hfail
    simp [generate_response, hie, hfail]

/-- Witness for C10: a failing LLM gateway leaves a concrete nonempty
transcript exactly as it was. -/
theorem generate_response_failure_frame_witness :
    ((fun _ : String => (none : Option String)) (full_prompt_of ex_search ex_state "q" 5)
      = none) ∧
    (generate_response (fun _ => none) ex_search ex_state
      [{ role := "user", content := "old" }] "q" 5).2.2 =
      [{ role := "user", content := "old" }] :=
  ⟨rfl, generate_response_failure_frame (fun _ => none) ex_search ex_state
    [{ role := "user", content := "old" }] "q" 5 rfl⟩

/-- Rebuilding a document record is idempotent: re-running the per-document
rebuild step on its own output (over the same files) changes nothing, since
the step only refreshes `chunk_count` from the unchanged file content. -/
theorem rebuildDoc_idem (chunk : String → List String) (files : List (String × String))
    (p : String × DocInfo) :
    rebuildDoc chunk files (rebuildDoc chunk files p).1 = rebuildDoc chunk files p := by
  cases hl : lookupKey files p.2.filename with
  | none => simp [rebuildDoc, hl]
  | some t =>
    by_cases ht : py_strip t = ""
    · simp [rebuildDoc, hl, ht]
    · simp [rebuildDoc, hl, ht]

/-- C9: `_rebuild_vector_store` is idempotent — running it twice in
succession (documents and files unchanged in between) yields exactly the
state of running it once, so in particular every document keeps the same
`chunk_count`. -/
theorem rebuild_idempotent (chunk : String → List String) (st : DPState) :
    _rebuild_vector_store chunk (_rebuild_vector_store chunk st) =
      _rebuild_vector_store chunk st := by
  have hg : ∀ p, rebuildDoc chunk st.files (rebuildDoc chunk st.files p).1 =
      rebuildDoc chunk st.files p := rebuildDoc_idem chunk st.files
  simp [_rebuild_vector_store, List.map_map, Function.comp_def, hg]

/-- Looking a key up right after erasing it yields nothing. -/
theorem lookupKey_eraseKey_self {α : Type} (l : List (String × α)) (k : String) :
    lookupKey (eraseKey l k) k = none := by
  unfold lookupKey eraseKey
  rw [Option.map_eq_none', List.find?_eq_none]
  intro p hp
  have h := (List.mem_filter.mp hp).2
  simpa using h

/-- The per-document rebuild step preserves the document id. -/
theorem rebuildDoc_fst_key (chunk : String → List String)
    (files : List (String × String)) (p : String × DocInfo) :
    (rebuildDoc chunk files p).1.1 = p.1 := by
  cases hl : lookupKey files p.2.filename with
  | none => simp [rebuildDoc, hl]
  | some t =>
    by_cases ht : py_strip t = ""
    · simp [rebuildDoc, hl, ht]
    · simp [rebuildDoc, hl, ht]

/-- A document id absent from the metadata store stays absent across a full
rebuild (the rebuild maps over the records, keeping every id). -/
theorem lookupKey_rebuild_none (chunk : String → List String) (st : DPState)
    (k : String) (h : lookupKey st.documents k = none) :
    lookupKey (_rebuild_vector_store chunk st).documents k = none := by
  show lookupKey (st.documents.map (fun p => (rebuildDoc chunk st.files p).1)) k = none
  rw [lookupKey, Option.map_eq_none', List.find?_eq_none]
  rw [lookupKey, Option.map_eq_none', List.find?_eq_none] at h
  intro q hq
  obtain ⟨p, hp, rfl⟩ := List.mem_map.mp hq
  have hk := h p hp
  simpa [rebuildDoc_fst_key] using hk

/-- C8: `delete_document` fails exactly when the id is unknown to the
metadata store (whether the PDF file exists plays no role); on a known id
it succeeds, and the resulting state is the full rebuild of the state with
the PDF file removed from disk and the metadata record removed — in
particular the id and the file are gone afterwards. -/
theorem delete_document_spec (chunk : String → List String) (st : DPState)
    (doc_id : String) :
    ((delete_document chunk st doc_id).1 = false ↔ lookupKey st.documents doc_id = none) ∧
    (∀ info, lookupKey st.documents doc_id = some info →
      (delete_document chunk st doc_id).2 =
        _rebuild_vector_store chunk
          { st with files := eraseKey st.files info.filename
                    documents := eraseKey st.documents doc_id } ∧
      lookupKey (delete_document chunk st doc_id).2.documents doc_id = none ∧
      lookupKey (delete_document chunk st doc_id).2.files info.filename = none) := by
  constructor
  · cases h : lookupKey st.documents doc_id with
    | none => simp [delete_document, h]
    | some info => simp [delete_document, h]
  · intro info hinfo
    refine ⟨by simp [delete_document, hinfo], ?_, ?_⟩
    · simp only [delete_document, hinfo]
      exact lookupKey_rebuild_none chunk _ doc_id (lookupKey_eraseKey_self st.documents doc_id)
    · simp only [delete_document, hinfo, _rebuild_vector_store]
      exact lookupKey_eraseKey_self st.files info.filename

/-- Witness for C8: deleting the known document of the sample state
succeeds and removes both its metadata record and its file; deleting an
unknown id fails. -/
theorem delete_document_spec_witness :
    ((delete_document ex_chunk ex_state "missing").1 = false ↔
      lookupKey ex_state.documents "missing" = none) ∧
    (lookupKey ex_state.documents "d1" = some ex_info) ∧
    lookupKey (delete_document ex_chunk ex_state "d1").2.documents "d1" = none ∧
    lookupKey (delete_document ex_chunk ex_state "d1").2.files ex_info.filename = none :=
  ⟨(delete_document_spec ex_chunk ex_state "missing").1, by decide,
   ((delete_document_spec ex_chunk ex_state "d1").2 ex_info (by decide)).2.1,
   ((delete_document_spec ex_chunk ex_state "d1").2 ex_info (by decide)).2.2⟩

/-- Every entry produced by the per-document rebuild step carries that
document's filename as `source` and its id as `doc_id`, and can only exist
when the document's file is present on disk. -/
theorem rebuildDoc_mem_snd (chunk : String → List String)
    (files : List (String × String)) (p : String × DocInfo) (e : Entry)
    (he : e ∈ (rebuildDoc chunk files p).2) :
    e.source = p.2.filename ∧ e.doc_id = p.1 ∧ lookupKey files p.2.filename ≠ none := by
  cases hl : lookupKey files p.2.filename with
  | none => simp [rebuildDoc, hl] at he
  | some t =>
    by_cases ht : py_strip t = ""
    · simp [rebuildDoc, hl, ht] at he
    · simp only [rebuildDoc, hl, if_neg ht, List.mem_map] at he
      obtain ⟨c, _, rfl⟩ := he
      exact ⟨rfl, rfl, by simp [hl]⟩

/-- C3: for a document id known to the metadata store, deleting it and then
searching — with any similarity oracle that only reports entries actually
held by the docstore, any query, and any k ≥ 1 — never yields a result
whose source filename is the deleted document's filename. -/
theorem delete_then_search_no_deleted_source (chunk : String → List String)
    (simSearch : List Entry → String → Nat → List (Entry × Int))
    (hsound : ∀ entries query k p, p ∈ simSearch entries query k → p.1 ∈ entries)
    (st : DPState) (doc_id : String) (info : DocInfo)
    (hdoc : lookupKey st.documents doc_id = some info)
    (query : String) (k : Nat) (hk1 : 1 ≤ k) :
    (search_documents simSearch (delete_document chunk st doc_id).2 query k).all
      (fun p => p.1.source != info.filename) = true := by
  rw [List.all_eq_true]
  intro p hp
  simp only [delete_document, hdoc] at hp
  rw [search_documents] at hp
  split at hp
  · exact absurd hp (List.not_mem_nil p)
  · have hmem := List.mem_filter.mp hp
    have h1 := hsound _ _ _ _ hmem.1
    have h2 := hmem.2
    simp only [_rebuild_vector_store] at h1
    rcases List.mem_cons.mp h1 with hph | hfl
    · rw [hph] at h2
      simp [placeholder_entry] at h2
    · rw [List.mem_flatten] at hfl
      obtain ⟨l, hl, hpl⟩ := hfl
      obtain ⟨q, _, rfl⟩ := List.mem_map.mp hl
      have h3 := rebuildDoc_mem_snd chunk _ q p.1 hpl
      have hne : q.2.filename ≠ info.filename := by
        intro heq
        apply h3.2.2
        rw [heq]
        exact lookupKey_eraseKey_self st.files info.filename
      rw [h3.1]
      simpa [bne_iff_ne] using hne

/-- Witness for C3: delete the sample document, then search with the
all-entries oracle; no result cites its filename. -/
theorem delete_then_search_witness :
    (∀ entries query k p, p ∈ ex_search entries query k → p.1 ∈ entries) ∧
    lookupKey ex_state.documents "d1" = some ex_info ∧ 1 ≤ 3 ∧
    (search_documents ex_search (delete_document ex_chunk ex_state "d1").2 "q" 3).all
      (fun p => p.1.source != ex_info.filename) = true :=
  ⟨fun entries query k p hp => by
      simp only [ex_search, List.mem_map] at hp
      obtain ⟨e, he, rfl⟩ := hp
      exact he,
   by decide, by decide,
   delete_then_search_no_deleted_source ex_chunk ex_search
     (fun entries query k p hp => by
       simp only [ex_search, List.mem_map] at hp
       obtain ⟨e, he, rfl⟩ := hp
       exact he)
     ex_state "d1" ex_info (by decide) "q" 3 (by decide)⟩

/-- A state whose single document records 5 chunks while the store holds
one populated entry: the docstore size (2) is not smaller than document
count + 1 (2), so the startup check sees nothing wrong. -/
def c1_state : DPState :=
  { documents := [("d1", { filename := "a.pdf", chunk_count := 5 })]
    entries := [placeholder_entry, ex_entry]
    files := [("a.pdf", "hello")] }

/-- C1 (counterexample): startup reconciliation does not compare the
populated-entry count with the aggregate chunk count — on `c1_state` it
triggers no rebuild and leaves the state untouched although the populated
count (1) differs from the aggregate chunk count (5), refuting the claimed
post-construction equality. -/
theorem startup_chunk_invariant_counterexample :
    _ensure_vector_store_populated ex_chunk c1_state = c1_state ∧
    populated_count c1_state ≠ aggregate_chunk_count c1_state := by
  exact ⟨by decide, by decide⟩

/-- Over documents whose files are all present with non-whitespace text and
whose ids differ from the reserved placeholder id, the rebuild loop inserts
exactly as many non-placeholder entries as the chunk counts it records. -/
theorem rebuild_counts (chunk : String → List String) (files : List (String × String))
    (docs : List (String × DocInfo))
    (hok : docs.all (file_ok files) = true)
    (hid : docs.all (fun p => p.1 != "placeholder") = true) :
    ((docs.map (fun p => (rebuildDoc chunk files p).2)).flatten.filter
        (fun e => e.doc_id != "placeholder")).length =
      (docs.map (fun p => (rebuildDoc chunk files p).1.2.chunk_count)).sum := by
  induction docs with
  | nil => rfl
  | cons q docs ih =>
    rw [List.all_cons, Bool.and_eq_true] at hok hid
    obtain ⟨hq, hok2⟩ := hok
    obtain ⟨hqid, hid2⟩ := hid
    simp only [List.map_cons, List.flatten_cons, List.filter_append, List.length_append,
      List.sum_cons]
    rw [ih hok2 hid2]
    congr 1
    cases hl : lookupKey files q.2.filename with
    | none =>
      simp only [file_ok, hl] at hq
      exact absurd hq (by simp)
    | some t =>
      simp only [file_ok, hl] at hq
      have ht : ¬ (py_strip t = "") := by simpa using hq
      simp only [rebuildDoc, hl, if_neg ht]
      simp [List.filter_map, Function.comp_def, hqid]

/-- After a full rebuild of a store whose documents all have present,
non-whitespace files and non-placeholder ids, the populated-entry count
equals the aggregate chunk count. -/
theorem rebuild_populated_eq_aggregate (chunk : String → List String) (st : DPState)
    (hok : all_files_ok st = true)
    (hid : st.documents.all (fun p => p.1 != "placeholder") = true) :
    populated_count (_rebuild_vector_store chunk st) =
      aggregate_chunk_count (_rebuild_vector_store chunk st) := by
  have h := rebuild_counts chunk st.files st.documents hok hid
  unfold populated_count aggregate_chunk_count
  simp only [_rebuild_vector_store, List.map_map]
  rw [List.filter_cons_of_neg (by decide)]
  simpa [Function.comp_def] using h

/-- C1 (amended): the startup check compares the docstore size against the
document count plus one (plus the placeholder-only and
empty-metadata-with-PDFs cases), not against the aggregate chunk count;
whenever that trigger fires it forces a full rebuild, and after the rebuild
— provided every document's file is present with non-whitespace text and no
document id is the reserved placeholder id — the populated-entry count
equals the aggregate chunk count. -/
theorem startup_reconciliation_amended (chunk : String → List String) (st : DPState)
    (htrig : need_rebuild st = true)
    (hok : all_files_ok st = true)
    (hid : st.documents.all (fun p => p.1 != "placeholder") = true) :
    _ensure_vector_store_populated chunk st = _rebuild_vector_store chunk st ∧
    populated_count (_ensure_vector_store_populated chunk st) =
      aggregate_chunk_count (_ensure_vector_store_populated chunk st) := by
  have h1 : _ensure_vector_store_populated chunk st = _rebuild_vector_store chunk st := by
    simp [_ensure_vector_store_populated, htrig]
  rw [h1]
  exact ⟨rfl, rebuild_populated_eq_aggregate chunk st hok hid⟩

/-- A state that does trip the startup check: the store holds only the
placeholder while one document with a readable file is on record. -/
def c1_trigger_state : DPState :=
  { documents := [("d1", { filename := "a.pdf", chunk_count := 3 })]
    entries := [placeholder_entry]
    files := [("a.pdf", "hello")] }

/-- Witness for the amended C1 on a state that triggers the rebuild. -/
theorem startup_reconciliation_amended_witness :
    (need_rebuild c1_trigger_state = true) ∧
    (all_files_ok c1_trigger_state = true) ∧
    (c1_trigger_state.documents.all (fun p => p.1 != "placeholder") = true) ∧
    (_ensure_vector_store_populated ex_chunk c1_trigger_state =
       _rebuild_vector_store ex_chunk c1_trigger_state ∧
     populated_count (_ensure_vector_store_populated ex_chunk c1_trigger_state) =
       aggregate_chunk_count (_ensure_vector_store_populated ex_chunk c1_trigger_state)) :=
  ⟨by decide, by decide, by decide,
   startup_reconciliation_amended ex_chunk c1_trigger_state (by decide) (by decide) (by decide)⟩

end RAG
